import Mathlib

/-!
Verification of the porthos-go RPC layer (client call/slot engine, server
dispatch, extension pipeline, response writer) against its specification.

Shallow embedding conventions:
* Go `time.Duration` values are `Int` nanoseconds; `int64(t / time.Millisecond)`
  is `Int.div t 1000000` (Go integer division truncates toward zero).
* Broker interactions (channel opening, publishing) are external collaborators;
  their outcomes enter the model as explicit `Option String` error parameters.
* A Go `panic` is an explicit `panicked` constructor of an outcome type.
-/

set_option autoImplicit false

namespace Porthos

/-- Correlation tokens are opaque strings (amqp CorrelationId). -/
abbrev CorrelationID := String

/-- Modelled from the spec: the Slot implementation (slot.go and the client
registry code) is not among the provided sources. Section 4.1 of the spec
describes the client registry as an authoritative mapping from correlation ID
to live Slot: createSlot generates a fresh unique token and registers the
Slot, and dispose removes the entry. We model the registry as the list of
live correlation IDs. -/
structure SlotRegistry where
  live : List CorrelationID
deriving Repr, DecidableEq

/-- Modelled from the spec: createSlot registers the freshly created Slot in
the registry (the fresh token itself is supplied as a parameter). -/
def SlotRegistry.register (r : SlotRegistry) (cid : CorrelationID) : SlotRegistry :=
  ⟨cid :: r.live⟩

/-- Modelled from the spec: Slot.Dispose removes the entry from the registry. -/
def SlotRegistry.dispose (r : SlotRegistry) (cid : CorrelationID) : SlotRegistry :=
  ⟨r.live.erase cid⟩

/-- Registry membership test for a correlation ID. -/
def SlotRegistry.holds (r : SlotRegistry) (cid : CorrelationID) : Bool :=
  r.live.contains cid

/-- Client-side state relevant to the call builder: service name, the declared
response queue name, the configured default TTL (ns) and the Slot registry. -/
structure Client where
  serviceName : String
  responseQueueName : String
  defaultTTL : Int
  registry : SlotRegistry
deriving Repr, DecidableEq

/-- The call builder struct from call.go: client pointer, per-call timeout
(ns, zero meaning unset), method name, body bytes and content type. -/
structure call where
  client : Client
  timeout : Int
  method : String
  body : List Nat
  contentType : String
deriving Repr, DecidableEq

/-- newCall from call.go: only client and method are set; timeout is the Go
zero value 0, body is nil, contentType the empty string. -/
def newCall (client : Client) (method : String) : call :=
  { client := client, timeout := 0, method := method, body := [], contentType := "" }

/-- WithTimeout from call.go: stores the given timeout unconditionally. -/
def call.WithTimeout (c : call) (t : Int) : call :=
  { c with timeout := t }

/-- WithBody from call.go: raw bytes, octet-stream content type. -/
def call.WithBody (c : call) (body : List Nat) : call :=
  { c with body := body, contentType := "application/octet-stream" }

/-- getTimeout from call.go: the per-call timeout when strictly positive,
otherwise the client default TTL. -/
def call.getTimeout (c : call) : Int :=
  if c.timeout > 0 then c.timeout else c.client.defaultTTL

/-- getTimeoutMilliseconds from call.go: the effective timeout divided by
time.Millisecond (1e6 ns) with Go truncating integer division. -/
def call.getTimeoutMilliseconds (c : call) : Int :=
  Int.tdiv (if c.timeout > 0 then c.timeout else c.client.defaultTTL) 1000000

/-- Outcome of a payload-setting builder operation: either the updated call or
an aborted task (Go panic). -/
inductive BuildResult where
  | ok (c : call)
  | panicked (msg : String)
deriving Repr, DecidableEq

/-- withJSON from call.go (porthos package): json.Marshal may fail; on failure
the call panics with the error, on success body and contentType are set. The
marshal outcome is an explicit parameter since encoding arbitrary Go values is
external to the model. -/
def call.withJSON (c : call) (marshalled : Except String (List Nat)) : BuildResult :=
  match marshalled with
  | .error e => .panicked e
  | .ok data => .ok { c with body := data, contentType := "application/json" }

/-- WithArgs from call.go (porthos package): delegates to withJSON. -/
def call.WithArgs (c : call) (marshalled : Except String (List Nat)) : BuildResult :=
  c.withJSON marshalled

/-- WithMap from call.go (porthos package): delegates to withJSON. -/
def call.WithMap (c : call) (marshalled : Except String (List Nat)) : BuildResult :=
  c.withJSON marshalled

/-- WithStruct from call.go (porthos package): delegates to withJSON. -/
def call.WithStruct (c : call) (marshalled : Except String (List Nat)) : BuildResult :=
  c.withJSON marshalled

/-- WithArgs from the client package variant of call.go: the json.Marshal
error is discarded with a blank identifier, the body becomes whatever Marshal
returned (nil, modelled as the empty list, on failure) and the content type is
set regardless. No panic and no returned error. -/
def clientWithArgs (c : call) (marshalled : Except String (List Nat)) : BuildResult :=
  .ok { c with body := (marshalled.toOption).getD [],
               contentType := "application/porthos-args" }

/-- WithMap from the client package variant of call.go: same discarded-error
pattern as clientWithArgs, with the porthos-map content type. -/
def clientWithMap (c : call) (marshalled : Except String (List Nat)) : BuildResult :=
  .ok { c with body := (marshalled.toOption).getD [],
               contentType := "application/porthos-map" }

/-- The amqp.Publishing record assembled by Async (request direction). -/
structure Publishing where
  xMethod : String
  expiration : Option String
  contentType : String
  correlationId : Option CorrelationID
  replyTo : Option String
  body : List Nat
deriving Repr, DecidableEq

/-- Result value of Async: a Slot identified by its correlation ID, or an
error (nil Slot). -/
inductive AsyncResult where
  | ok (slotID : CorrelationID)
  | err (e : String)
deriving Repr, DecidableEq

/-- Full outcome of Async: the returned value, the Slot registry after the
call, and the messages actually handed to the broker. -/
structure AsyncOutcome where
  result : AsyncResult
  registry : SlotRegistry
  published : List Publishing
deriving Repr, DecidableEq

/-- Async from call.go: creates (and, per the spec model, registers) a Slot
first, then opens a channel and publishes with the correlation ID, the client
response queue as ReplyTo and the effective timeout in milliseconds as the
Expiration string. On a channel-open or publish error it returns a nil Slot
and the error; no code path disposes the created Slot. `freshID` is the token
generated for the new Slot; `chanErr` and `pubErr` are the broker outcomes. -/
def call.Async (c : call) (freshID : CorrelationID)
    (chanErr : Option String) (pubErr : Option String) : AsyncOutcome :=
  let reg := c.client.registry.register freshID
  match chanErr with
  | some e => { result := .err e, registry := reg, published := [] }
  | none =>
    let msg : Publishing :=
      { xMethod := c.method
        expiration := some (toString c.getTimeoutMilliseconds)
        contentType := c.contentType
        correlationId := some freshID
        replyTo := some c.client.responseQueueName
        body := c.body }
    match pubErr with
    | some e => { result := .err e, registry := reg, published := [] }
    | none => { result := .ok freshID, registry := reg, published := [msg] }

/-- A client-side response as delivered into a Slot. -/
structure ClientResponse where
  content : List Nat
  contentType : String
  statusCode : Int
deriving Repr, DecidableEq

/-- ErrTimedOut from errors.go. -/
def ErrTimedOut : String := "timed out"

/-- ErrNilPublishChannel from errors.go. -/
def ErrNilPublishChannel : String := "No AMQP channel to publish the response to."

/-- Result value of Sync. -/
inductive SyncResult where
  | ok (r : ClientResponse)
  | err (e : String)
deriving Repr, DecidableEq

/-- Sync from call.go: calls Async; on error returns it at once (before the
deferred Dispose is installed). Otherwise a deferred slot.Dispose guards the
select between the Slot reply and the timer: a reply yields the Response, the
timer yields ErrTimedOut, and in both cases the deferred Dispose runs. The
race winner is the `reply` parameter (some r when the reply arrived first,
none when the timer fired first). Returns the result and the final registry. -/
def call.Sync (c : call) (freshID : CorrelationID)
    (chanErr : Option String) (pubErr : Option String)
    (reply : Option ClientResponse) : SyncResult × SlotRegistry :=
  let a := c.Async freshID chanErr pubErr
  match a.result with
  | .err e => (.err e, a.registry)
  | .ok slotID =>
    match reply with
    | some r => (.ok r, a.registry.dispose slotID)
    | none => (.err ErrTimedOut, a.registry.dispose slotID)

/-- An amqp header value: Go stores interface values; the method-extraction
code performs a string type assertion, so the model distinguishes strings from
every other shape. -/
inductive HeaderValue where
  | str (s : String)
  | int (n : Int)
  | bytes (b : List Nat)
deriving Repr, DecidableEq

/-- First value bound to a key in an ordered header list (map lookup; a Go
map has at most one binding per key, the list model takes the first). -/
def lookupHeader : List (String × HeaderValue) → String → Option HeaderValue
  | [], _ => none
  | (k0, v0) :: rest, k => if k0 = k then some v0 else lookupHeader rest k

/-- Headers.Set: overwrite the binding for the key, appending when absent
(the Response header set of the spec data model, an ordered mapping). -/
def setHeader : List (String × HeaderValue) → String → HeaderValue → List (String × HeaderValue)
  | [], k, v => [(k, v)]
  | (k0, v0) :: rest, k, v =>
    if k0 = k then (k, v) :: rest else (k0, v0) :: setHeader rest k v

/-- An inbound amqp delivery as seen by the server. -/
structure Delivery where
  headers : List (String × HeaderValue)
  contentType : String
  body : List Nat
  correlationId : CorrelationID
  replyTo : String
deriving Repr, DecidableEq

/-- The expression d.Headers[X-Method].(string) from processRequest: a missing
key yields a nil interface and a non-string value fails the unchecked type
assertion; both make the Go expression panic, modelled as none. -/
def extractMethod (d : Delivery) : Option String :=
  match lookupHeader d.headers "X-Method" with
  | some (.str s) => some s
  | _ => none

/-- A server-side Response (spec data model and the Response interface used by
responseWriter.Write): body bytes, content type, status code, header set. -/
structure Response where
  body : List Nat
  contentType : String
  statusCode : Int
  headers : List (String × HeaderValue)
deriving Repr, DecidableEq

/-- newResponse: the empty Response handed to a handler. -/
def newResponse : Response :=
  { body := [], contentType := "", statusCode := 0, headers := [] }

/-- A response-direction publishing assembled by responseWriter.Write. -/
structure ResponsePublishing where
  routingKey : String
  headers : List (String × HeaderValue)
  contentType : String
  correlationId : CorrelationID
  body : List Nat
deriving Repr, DecidableEq

/-- Broker-visible effects of the response path, in order of occurrence. -/
inductive WriterAction where
  | publish (p : ResponsePublishing)
  | ack
  | reject (requeue : Bool)
deriving Repr, DecidableEq

/-- responseWriter from the server code: the publish channel (none models a
nil amqp channel), the auto-ack flag and the delivery being answered. -/
structure responseWriter where
  channel : Option Unit
  autoAck : Bool
  delivery : Delivery
deriving Repr, DecidableEq

/-- responseWriter.Write from errors.go: a nil channel returns
ErrNilPublishChannel at once; otherwise the status code is injected into the
Response header set, the message is published to the delivery ReplyTo with the
delivery CorrelationId, a publish error is returned with no acknowledgment,
and on success the delivery is acked exactly when the server is not in
auto-ack mode. Returns the error value and the broker-visible actions. -/
def responseWriter.Write (rw : responseWriter) (res : Response)
    (pubErr : Option String) : Option String × List WriterAction :=
  match rw.channel with
  | none => (some ErrNilPublishChannel, [])
  | some _ =>
    let hs := setHeader res.headers "statusCode" (.int res.statusCode)
    let msg : ResponsePublishing :=
      { routingKey := rw.delivery.replyTo
        headers := hs
        contentType := res.contentType
        correlationId := rw.delivery.correlationId
        body := res.body }
    match pubErr with
    | some e => (some e, [])
    | none => (none, .publish msg :: (if rw.autoAck then [] else [.ack]))

/-- Server state relevant to dispatch: the set of registered method names and
the auto-ack option. -/
structure server where
  methods : List String
  autoAck : Bool
deriving Repr, DecidableEq

/-- Outcome of one dispatch task: normal completion with its broker-visible
actions, or a Go panic escaping the task. -/
inductive TaskOutcome where
  | completed (acts : List WriterAction)
  | panicked (msg : String)
deriving Repr, DecidableEq

/-- processRequest from call.go: first the unchecked string type assertion on
the X-Method header (missing or non-string panics); on a registered method it
opens a response channel (a failed open is only logged, leaving a nil channel
for the writer), runs the handler and hands the Response to a responseWriter
for this delivery (a Write error is only logged); on an unregistered method it
logs and, unless auto-ack is on, rejects the delivery without requeue.
`handlerRes` is the Response state after the registered handler ran. -/
def server.processRequest (s : server) (d : Delivery) (chanErr : Option String)
    (handlerRes : Response) (pubErr : Option String) : TaskOutcome :=
  match extractMethod d with
  | none => .panicked "interface conversion: interface is not a string"
  | some methodName =>
    if s.methods.contains methodName then
      let ch : Option Unit := match chanErr with | some _ => none | none => some ()
      let rw : responseWriter := { channel := ch, autoAck := s.autoAck, delivery := d }
      let write := rw.Write handlerRes pubErr
      .completed write.2
    else
      .completed (if s.autoAck then [] else [.reject false])

/-- Whether the whole server process survives a dispatch task. -/
inductive ProcessState where
  | running
  | crashed
deriving Repr, DecidableEq

/-- Go runtime semantics of the serve loop: each delivery is dispatched with
go s.processRequest(d), processRequest installs no recover, and an unrecovered
panic in any goroutine terminates the entire Go process. -/
def dispatchOutcome : TaskOutcome → ProcessState
  | .panicked _ => .crashed
  | .completed _ => .running

/-- Observable events of the wrapped handler, in execution order. Extensions
are identified by their position-independent id (a Nat). -/
inductive Event where
  | incoming (ext : Nat)
  | handlerRun
  | outgoing (ext : Nat) (elapsed : Int) (status : Int)
deriving Repr, DecidableEq

/-- pipeThroughIncomingExtensions: iterate the extension list in order,
invoking IncomingRequest on each. -/
def pipeThroughIncomingExtensions : List Nat → List Event
  | [] => []
  | e :: rest => .incoming e :: pipeThroughIncomingExtensions rest

/-- pipeThroughOutgoingExtensions: iterate the extension list in order,
invoking OutgoingResponse with the elapsed time and res.GetStatusCode(). -/
def pipeThroughOutgoingExtensions (elapsed : Int) (status : Int) : List Nat → List Event
  | [] => []
  | e :: rest => .outgoing e elapsed status :: pipeThroughOutgoingExtensions elapsed status rest

/-- The closure stored by server.Register: pipe the request through the
incoming extensions, record time.Now, run the user handler, then pipe through
the outgoing extensions with time.Since(started) and the Response status code.
The user handler is its effect `h` on the Response; `started` is the monotonic
clock reading at time.Now and `dur` the wall time the handler consumed, so
time.Since(started) reads started + dur minus started. The extension list is
read from the server at invocation time, in registration (append) order.
Returns the final Response and the event trace. -/
def registeredHandler (exts : List Nat) (h : Response → Response)
    (started dur : Nat) (res : Response) : Response × List Event :=
  let ev1 := pipeThroughIncomingExtensions exts
  let res2 := h res
  let elapsed : Int := ((started + dur : Nat) : Int) - (started : Int)
  let ev2 := pipeThroughOutgoingExtensions elapsed res2.statusCode exts
  (res2, ev1 ++ [.handlerRun] ++ ev2)

/-- Concrete client used to instantiate theorems on closed inputs. -/
def sampleClient : Client :=
  { serviceName := "calculator"
    responseQueueName := "amq.gen-reply"
    defaultTTL := 1500000000
    registry := ⟨[]⟩ }

/-- Concrete freshly built call against sampleClient. -/
def sampleCall : call := newCall sampleClient "add"

/-- Concrete delivery carrying a well-formed X-Method header. -/
def sampleDelivery : Delivery :=
  { headers := [("X-Method", .str "add")]
    contentType := "application/json"
    body := [1, 2]
    correlationId := "cid-req"
    replyTo := "amq.gen-reply" }

/-- Registering a token makes the registry hold it. -/
lemma SlotRegistry.holds_register_self (r : SlotRegistry) (cid : CorrelationID) :
    (r.register cid).holds cid = true := by
  simp [SlotRegistry.register, SlotRegistry.holds]

/-- Disposing the token just registered restores the original registry. -/
lemma SlotRegistry.dispose_register (r : SlotRegistry) (cid : CorrelationID) :
    (r.register cid).dispose cid = r := by
  cases r with
  | mk live => simp [SlotRegistry.register, SlotRegistry.dispose]

/-- The registry produced by Async is always the input registry with the fresh
token registered, on every branch. -/
lemma call.async_registry (c : call) (fid : CorrelationID)
    (chanErr pubErr : Option String) :
    (c.Async fid chanErr pubErr).registry = c.client.registry.register fid := by
  cases chanErr <;> cases pubErr <;> rfl

/-- The incoming pipe visits exactly the extension list, in order. -/
lemma pipeThroughIncomingExtensions_eq_map (exts : List Nat) :
    pipeThroughIncomingExtensions exts = exts.map Event.incoming := by
  induction exts with
  | nil => rfl
  | cons e rest ih => simp [pipeThroughIncomingExtensions, ih]

/-- The outgoing pipe visits exactly the extension list, in order, with the
same elapsed time and status code at every hook. -/
lemma pipeThroughOutgoingExtensions_eq_map (elapsed : Int) (status : Int) (exts : List Nat) :
    pipeThroughOutgoingExtensions elapsed status exts
      = exts.map (fun e => Event.outgoing e elapsed status) := by
  induction exts with
  | nil => rfl
  | cons e rest ih => simp [pipeThroughOutgoingExtensions, ih]

/-- Whether an action list delivers any response publishing. -/
def hasPublish : List WriterAction → Bool
  | [] => false
  | .publish _ :: _ => true
  | _ :: rest => hasPublish rest

/-- C1, counterexample: with an empty initial registry, Async on a failed
publish returns the error (nil Slot) yet the registry still holds the freshly
generated correlation ID, contradicting the claim that no entry remains. -/
theorem c1_counterexample_publish_error_entry_remains :
    (sampleCall.Async "cid-1" none (some "pub-err")).result
        = AsyncResult.err "pub-err" ∧
    (sampleCall.Async "cid-1" none (some "pub-err")).registry.holds "cid-1" = true := by
  exact ⟨rfl, rfl⟩

/-- C1 (amended): whenever Async returns a non-nil error, no Slot is returned,
but the Slot registered for the generated correlation ID is never disposed on
the error paths: the registry still contains that entry, so the Slot is
leaked. -/
theorem c1_async_error_leaks_registry_entry
    (c : call) (fid : CorrelationID) (chanErr pubErr : Option String) (e : String)
    (h : (c.Async fid chanErr pubErr).result = .err e) :
    (c.Async fid chanErr pubErr).registry.holds fid = true := by
  rw [call.async_registry]
  exact SlotRegistry.holds_register_self _ _

/-- Witness for c1_async_error_leaks_registry_entry at a concrete call whose
publish fails. -/
theorem c1_async_error_leaks_registry_entry_witness :
    (sampleCall.Async "cid-1w" none (some "pub-err")).registry.holds "cid-1w" = true :=
  c1_async_error_leaks_registry_entry sampleCall "cid-1w" none (some "pub-err") "pub-err" rfl

/-- C2: a delivery whose X-Method header is absent (and likewise one whose
value is not a string) makes processRequest fail the unchecked string type
assertion, i.e. panic, and since the task runs as a bare goroutine with no
recover, the unrecovered panic terminates the whole server process rather
than only that dispatch task. -/
theorem c2_malformed_method_header_crashes_process :
    server.processRequest ⟨["add"], false⟩
        { headers := [], contentType := "application/json", body := [],
          correlationId := "cid-2", replyTo := "amq.gen-reply" }
        none newResponse none
      = TaskOutcome.panicked "interface conversion: interface is not a string" ∧
    dispatchOutcome
      (server.processRequest ⟨["add"], false⟩
        { headers := [], contentType := "application/json", body := [],
          correlationId := "cid-2", replyTo := "amq.gen-reply" }
        none newResponse none) = ProcessState.crashed ∧
    dispatchOutcome
      (server.processRequest ⟨["add"], false⟩
        { headers := [("X-Method", HeaderValue.int 7)], contentType := "",
          body := [], correlationId := "cid-2b", replyTo := "amq.gen-reply" }
        none newResponse none) = ProcessState.crashed := by
  exact ⟨rfl, rfl, rfl⟩

/-- C3, counterexample: on the publish-error exit path of Sync the Slot
created inside Async is not disposed: Sync returns the publish error and the
registry still holds the correlation ID, contradicting the claim that every
exit path of Sync leaves no registry entry behind. -/
theorem c3_counterexample_publish_error_exit_leaves_entry :
    (sampleCall.Sync "cid-3" none (some "pub-err") none).1
        = SyncResult.err "pub-err" ∧
    (sampleCall.Sync "cid-3" none (some "pub-err") none).2.holds "cid-3" = true := by
  exact ⟨rfl, rfl⟩

/-- C3 (amended): when publish succeeds, Sync returns the reply if one arrives
before the timer and ErrTimedOut otherwise, and on both of those exit paths
the Slot is disposed, leaving no registry entry for a fresh token; on the
publish-error exit path Sync returns the error but the Slot created inside
Async is not disposed and its registry entry remains. -/
theorem c3_sync_outcomes_and_disposal
    (c : call) (fid : CorrelationID) (r : ClientResponse) (pe : String)
    (hfresh : c.client.registry.holds fid = false) :
    (c.Sync fid none none (some r)).1 = SyncResult.ok r ∧
    (c.Sync fid none none (some r)).2.holds fid = false ∧
    (c.Sync fid none none none).1 = SyncResult.err ErrTimedOut ∧
    (c.Sync fid none none none).2.holds fid = false ∧
    (c.Sync fid none (some pe) none).1 = SyncResult.err pe ∧
    (c.Sync fid none (some pe) none).2.holds fid = true := by
  refine ⟨rfl, ?_, rfl, ?_, rfl, ?_⟩
  · show ((c.client.registry.register fid).dispose fid).holds fid = false
    rw [SlotRegistry.dispose_register]
    exact hfresh
  · show ((c.client.registry.register fid).dispose fid).holds fid = false
    rw [SlotRegistry.dispose_register]
    exact hfresh
  · show (c.client.registry.register fid).holds fid = true
    exact SlotRegistry.holds_register_self _ _

/-- Witness for c3_sync_outcomes_and_disposal at a concrete call with an
empty initial registry. -/
theorem c3_sync_outcomes_and_disposal_witness :
    (sampleCall.Sync "cid-3w" none none (some ⟨[7], "application/json", 200⟩)).1
        = SyncResult.ok ⟨[7], "application/json", 200⟩ ∧
    (sampleCall.Sync "cid-3w" none none (some ⟨[7], "application/json", 200⟩)).2.holds "cid-3w" = false ∧
    (sampleCall.Sync "cid-3w" none none none).1 = SyncResult.err ErrTimedOut ∧
    (sampleCall.Sync "cid-3w" none none none).2.holds "cid-3w" = false ∧
    (sampleCall.Sync "cid-3w" none (some "pub-err") none).1 = SyncResult.err "pub-err" ∧
    (sampleCall.Sync "cid-3w" none (some "pub-err") none).2.holds "cid-3w" = true :=
  c3_sync_outcomes_and_disposal sampleCall "cid-3w" ⟨[7], "application/json", 200⟩ "pub-err" rfl

/-- C4: the effective handler stored by Register first invokes IncomingRequest
on every extension in registration order, then the user handler, then
OutgoingResponse on every extension in the same order, each outgoing hook
receiving the same non-negative elapsed duration and a status code equal to
the final status code of the Response the handler produced. -/
theorem c4_extension_pipeline_order
    (exts : List Nat) (h : Response → Response) (started dur : Nat) (res : Response) :
    (registeredHandler exts h started dur res).2
      = exts.map Event.incoming
        ++ [Event.handlerRun]
        ++ exts.map (fun e =>
              Event.outgoing e (dur : Int) ((registeredHandler exts h started dur res).1.statusCode)) ∧
    (0 : Int) ≤ (dur : Int) ∧
    (registeredHandler exts h started dur res).1 = h res := by
  have helapsed : ((started + dur : Nat) : Int) - (started : Int) = (dur : Int) := by
    push_cast
    ring
  refine ⟨?_, Int.ofNat_nonneg dur, rfl⟩
  show pipeThroughIncomingExtensions exts ++ [Event.handlerRun]
        ++ pipeThroughOutgoingExtensions (((started + dur : Nat) : Int) - (started : Int)) (h res).statusCode exts
      = _
  rw [helapsed, pipeThroughIncomingExtensions_eq_map, pipeThroughOutgoingExtensions_eq_map]
  rfl

/-- C5: with a bound publish channel, Write injects the status code into the
Response header set, publishes exactly one message to the delivery reply-to
destination carrying the original correlation ID, acknowledges the delivery
only when the server is not in auto-ack mode and only after the successful
publish, and on a publish error returns that error with no publish delivered
and the delivery left unacknowledged. -/
theorem c5_write_publish_ack_and_error
    (rw : responseWriter) (res : Response) (e : String)
    (hch : rw.channel = some ()) :
    (rw.Write res none).1 = none ∧
    (rw.Write res none).2
      = WriterAction.publish
          { routingKey := rw.delivery.replyTo
            headers := setHeader res.headers "statusCode" (HeaderValue.int res.statusCode)
            contentType := res.contentType
            correlationId := rw.delivery.correlationId
            body := res.body }
        :: (if rw.autoAck then [] else [WriterAction.ack]) ∧
    (rw.Write res (some e)).1 = some e ∧
    (rw.Write res (some e)).2 = [] := by
  simp [responseWriter.Write, hch]

/-- Witness for c5_write_publish_ack_and_error at a concrete writer in manual
acknowledgment mode. -/
theorem c5_write_publish_ack_and_error_witness :
    ((responseWriter.mk (some ()) false sampleDelivery).Write
        { body := [3], contentType := "application/json", statusCode := 200,
          headers := [] } none).1 = none ∧
    ((responseWriter.mk (some ()) false sampleDelivery).Write
        { body := [3], contentType := "application/json", statusCode := 200,
          headers := [] } none).2
      = WriterAction.publish
          { routingKey := sampleDelivery.replyTo
            headers := setHeader [] "statusCode" (HeaderValue.int 200)
            contentType := "application/json"
            correlationId := sampleDelivery.correlationId
            body := [3] }
        :: (if false then [] else [WriterAction.ack]) ∧
    ((responseWriter.mk (some ()) false sampleDelivery).Write
        { body := [3], contentType := "application/json", statusCode := 200,
          headers := [] } (some "pub-err")).1 = some "pub-err" ∧
    ((responseWriter.mk (some ()) false sampleDelivery).Write
        { body := [3], contentType := "application/json", statusCode := 200,
          headers := [] } (some "pub-err")).2 = [] :=
  c5_write_publish_ack_and_error (responseWriter.mk (some ()) false sampleDelivery)
    { body := [3], contentType := "application/json", statusCode := 200, headers := [] }
    "pub-err" rfl

/-- C6: with no bound publish channel, Write returns ErrNilPublishChannel
immediately and performs no broker action at all: nothing is published and
the delivery is not acknowledged, in either ack mode and for any publish
outcome parameter. -/
theorem c6_write_nil_channel_no_actions
    (rw : responseWriter) (res : Response) (pubErr : Option String)
    (hch : rw.channel = none) :
    rw.Write res pubErr = (some ErrNilPublishChannel, []) := by
  simp [responseWriter.Write, hch]

/-- Witness for c6_write_nil_channel_no_actions at a concrete writer with a
nil channel. -/
theorem c6_write_nil_channel_no_actions_witness :
    (responseWriter.mk none false sampleDelivery).Write
        { body := [], contentType := "", statusCode := 404, headers := [] } none
      = (some ErrNilPublishChannel, []) :=
  c6_write_nil_channel_no_actions (responseWriter.mk none false sampleDelivery)
    { body := [], contentType := "", statusCode := 404, headers := [] } none rfl

/-- C7: a delivery whose method name is not registered completes its dispatch
task without panicking (the process stays running), publishes no response,
and either rejects the delivery without requeue (manual acknowledgment) or
performs no action at all (auto-ack). -/
theorem c7_unknown_method_rejected_no_crash
    (s : server) (d : Delivery) (chanErr pubErr : Option String)
    (hres : Response) (m : String)
    (hm : extractMethod d = some m)
    (hmiss : s.methods.contains m = false) :
    s.processRequest d chanErr hres pubErr
      = TaskOutcome.completed (if s.autoAck then [] else [WriterAction.reject false]) ∧
    dispatchOutcome (s.processRequest d chanErr hres pubErr) = ProcessState.running ∧
    hasPublish (if s.autoAck then [] else [WriterAction.reject false]) = false := by
  have hout : s.processRequest d chanErr hres pubErr
      = TaskOutcome.completed (if s.autoAck then [] else [WriterAction.reject false]) := by
    have hmem : m ∉ s.methods := by simpa using hmiss
    unfold server.processRequest
    rw [hm]
    simp [hmem]
  refine ⟨hout, ?_, ?_⟩
  · rw [hout]
    rfl
  · cases hauto : s.autoAck <;> simp [hasPublish]

/-- Witness for c7_unknown_method_rejected_no_crash: a manual-ack server
knowing only the add method receives a delivery for the mul method. -/
theorem c7_unknown_method_rejected_no_crash_witness :
    server.processRequest ⟨["add"], false⟩
        { headers := [("X-Method", HeaderValue.str "mul")], contentType := "",
          body := [], correlationId := "cid-7", replyTo := "amq.gen-reply" }
        none newResponse none
      = TaskOutcome.completed (if false then [] else [WriterAction.reject false]) ∧
    dispatchOutcome
      (server.processRequest ⟨["add"], false⟩
        { headers := [("X-Method", HeaderValue.str "mul")], contentType := "",
          body := [], correlationId := "cid-7", replyTo := "amq.gen-reply" }
        none newResponse none) = ProcessState.running ∧
    hasPublish (if false then [] else [WriterAction.reject false]) = false :=
  c7_unknown_method_rejected_no_crash ⟨["add"], false⟩
    { headers := [("X-Method", HeaderValue.str "mul")], contentType := "",
      body := [], correlationId := "cid-7", replyTo := "amq.gen-reply" }
    none none newResponse "mul" rfl rfl

/-- C8, counterexample: the client package variant of WithArgs, given a value
whose serialization fails, does not panic and does not surface an error: it
returns the updated call with an empty body, so not every payload-setting
operation aborts on an unserializable value. -/
theorem c8_counterexample_client_with_args_no_panic :
    clientWithArgs sampleCall (Except.error "json: unsupported type")
      = BuildResult.ok
          { sampleCall with body := [], contentType := "application/porthos-args" } := by
  rfl

/-- C8 (amended): in the porthos package every payload-setting operation
(WithArgs, WithMap, WithStruct, all via withJSON) aborts with a panic when
the value cannot be serialized; the client package variant instead silently
discards the marshal error and keeps building the call with the nil marshal
output as body. -/
theorem c8_payload_encoding_failure_behavior
    (c : call) (e : String) :
    c.WithArgs (Except.error e) = BuildResult.panicked e ∧
    c.WithMap (Except.error e) = BuildResult.panicked e ∧
    c.WithStruct (Except.error e) = BuildResult.panicked e ∧
    c.withJSON (Except.error e) = BuildResult.panicked e ∧
    clientWithArgs c (Except.error e)
      = BuildResult.ok { c with body := [], contentType := "application/porthos-args" } ∧
    clientWithMap c (Except.error e)
      = BuildResult.ok { c with body := [], contentType := "application/porthos-map" } := by
  exact ⟨rfl, rfl, rfl, rfl, rfl, rfl⟩

/-- C9: a successful Async publishes exactly one message whose correlation ID
is the Slot token it returns, whose reply-to is the client declared response
queue name, and whose expiration is the effective timeout in milliseconds as
a decimal string, the effective timeout being the per-call timeout when a
strictly positive one is stored and the client default TTL otherwise. -/
theorem c9_async_publishing_fields (c : call) (fid : CorrelationID) :
    (c.Async fid none none).result = AsyncResult.ok fid ∧
    (c.Async fid none none).published
      = [{ xMethod := c.method
           expiration := some (toString (Int.tdiv
             (if c.timeout > 0 then c.timeout else c.client.defaultTTL) 1000000))
           contentType := c.contentType
           correlationId := some fid
           replyTo := some c.client.responseQueueName
           body := c.body }] ∧
    c.getTimeoutMilliseconds = Int.tdiv c.getTimeout 1000000 := by
  refine ⟨rfl, rfl, ?_⟩
  unfold call.getTimeoutMilliseconds call.getTimeout
  rfl

/-- C10: a stored per-call timeout that is not strictly positive (for example
WithTimeout 0 or a negative value) is ignored: getTimeout falls back to the
client default TTL, getTimeoutMilliseconds and the published expiration are
computed from the default TTL, the effective timeout stays strictly positive
whenever the default is, and the expiration value is strictly positive
whenever the default TTL is at least one millisecond. -/
theorem c10_nonpositive_timeout_falls_back_to_default
    (c : call) (t : Int) (fid : CorrelationID)
    (ht : t ≤ 0) (hpos : 0 < c.client.defaultTTL)
    (hms : 1000000 ≤ c.client.defaultTTL) :
    (c.WithTimeout t).getTimeout = c.client.defaultTTL ∧
    (c.WithTimeout t).getTimeoutMilliseconds = Int.tdiv c.client.defaultTTL 1000000 ∧
    ((c.WithTimeout t).Async fid none none).published.map Publishing.expiration
      = [some (toString (Int.tdiv c.client.defaultTTL 1000000))] ∧
    0 < (c.WithTimeout t).getTimeout ∧
    0 < Int.tdiv c.client.defaultTTL 1000000 := by
  have hnot : ¬ ((c.WithTimeout t).timeout > 0) := by
    simp only [call.WithTimeout]
    omega
  have hgt : (c.WithTimeout t).getTimeout = c.client.defaultTTL := by
    unfold call.getTimeout
    rw [if_neg hnot]
    rfl
  have hdiv : 0 < Int.tdiv c.client.defaultTTL 1000000 := by
    rw [Int.tdiv_eq_ediv (by omega) (by omega)]
    omega
  refine ⟨hgt, ?_, ?_, ?_, hdiv⟩
  · unfold call.getTimeoutMilliseconds
    rw [if_neg hnot]
    rfl
  · show ((c.WithTimeout t).Async fid none none).published.map Publishing.expiration = _
    unfold call.Async call.getTimeoutMilliseconds
    rw [if_neg hnot]
    rfl
  · rw [hgt]
    exact hpos

/-- Witness for c10_nonpositive_timeout_falls_back_to_default with an explicit
zero timeout on sampleCall (default TTL 1500000000 ns, that is 1500 ms). -/
theorem c10_nonpositive_timeout_falls_back_to_default_witness :
    (sampleCall.WithTimeout 0).getTimeout = sampleCall.client.defaultTTL ∧
    (sampleCall.WithTimeout 0).getTimeoutMilliseconds
      = Int.tdiv sampleCall.client.defaultTTL 1000000 ∧
    ((sampleCall.WithTimeout 0).Async "cid-10" none none).published.map Publishing.expiration
      = [some (toString (Int.tdiv sampleCall.client.defaultTTL 1000000))] ∧
    0 < (sampleCall.WithTimeout 0).getTimeout ∧
    0 < Int.tdiv sampleCall.client.defaultTTL 1000000 :=
  c10_nonpositive_timeout_falls_back_to_default sampleCall 0 "cid-10"
    (by decide) (by decide) (by decide)

end Porthos
